import Mathlib

/-!
Verification of `lolopy/loloserver.py` (gateway bootstrap and lifecycle
manager) against its natural-language specification.

The module is embedded shallowly.  All interaction with the outside world
(environment variables, filesystem probes, XML descriptor parsing, child
process spawning) is captured in a `World` record of oracles; the Python
functions become pure Lean functions of a `World`.  Python exceptions are
modelled by the `PyError` inductive, carrying the exception class and, where
the source fixes one, the exact message string.  The process-wide global
`_lolopy_gateway` becomes an explicit `Option Nat` threaded through
`get_java_gateway`, and the observable side effects of a call (artifact
resolution, runtime probing, process launch) are recorded in an `Event`
trace so that claims of the form "no second process is spawned" are
statable.
-/

namespace LoloServer

/-- Outcome of `ElementTree.parse` on `pom.xml` followed by the namespaced
`find` of the `version` element:
* `missing`: the file does not exist (`FileNotFoundError`);
* `malformed`: the file exists but is not well-formed XML (`ParseError`);
* `parsed none`: parse succeeded but the namespaced version element is
  absent, so `pom.find(...)` returns `None` and `.text` raises
  `AttributeError`;
* `parsed (some v)`: the version element is present with text `v`. -/
inductive PomParse where
  | missing
  | malformed
  | parsed (version : Option String)
  deriving DecidableEq, Repr

/-- Python exception classes raised (or propagated) by the module, with the
message or filename when the source determines it. -/
inductive PyError where
  | runtimeError (msg : String)
  | valueError (msg : String)
  | fileNotFoundError (filename : String)
  | xmlParseError (path : String)
  | attributeError (msg : String)
  deriving DecidableEq, Repr

/-- The ambient state the module reads: environment variables, filesystem
probes, the descriptor-parse outcome, and the outcome of spawning
`java -version`.

* `moduleDir` models `os.path.dirname(__file__)`.
* `env` models `os.environ` (`none` = variable absent).
* `isFile` / `isDir` model `os.path.isfile` / `os.path.isdir`.
* `pom` models parsing `<lolo_root>/pom.xml` and looking up the namespaced
  version element.
* `spawn` models `run(['java', '-version'], stdout=PIPE, stderr=PIPE)`:
  `none` means the executable could not be spawned, in which case CPython's
  `subprocess.run` raises `FileNotFoundError`; `some (out, err)` gives the
  captured standard output and standard error.
* `abspath` models `os.path.abspath`. -/
structure World where
  moduleDir : String
  env : String → Option String
  isFile : String → Bool
  isDir : String → Bool
  pom : PomParse
  spawn : Option (String × String)
  abspath : String → String

/-- Python `bytes.startswith`: whether the expected banner is an initial
segment of the captured stream content. -/
def startswith (s pat : String) : Bool := pat.data.isPrefixOf s.data

/-- `os.path.join` of two path components, for the relative second
components used by this module. -/
def joinPath (a b : String) : String := a ++ "/" ++ b

/-- `os.path.join` folded over a list of relative components. -/
def joinPaths (base : String) (parts : List String) : String :=
  parts.foldl joinPath base

/-- `_lolo_root = os.path.join(os.path.dirname(__file__), '..', '..')`. -/
def lolo_root (w : World) : String :=
  joinPaths w.moduleDir ["..", ".."]

/-- Path of the build descriptor read in development mode. -/
def pom_path (w : World) : String :=
  joinPath (lolo_root w) "pom.xml"

/-- `_is_development_installation()`: probe for the lolo scala source
directory relative to the module location. -/
def _is_development_installation (w : World) : Bool :=
  w.isDir (joinPaths (lolo_root w) ["src", "main", "scala", "io", "citrine", "lolo"])

/-- `_java_is_installed(ignore_env)`.  Route 1: unless `ignore_env`, test
for a file at `os.environ.get('JAVA_HOME', '.')/bin/java`.  Route 2: spawn
`java -version` and test whether stdout or stderr starts with the banner
prefix.  A failed spawn makes `subprocess.run` itself raise
`FileNotFoundError`, which the source does not catch, so it is modelled as
an `Except.error` and propagates. -/
def _java_is_installed (w : World) (ignore_env : Bool) : Except PyError Bool :=
  if !ignore_env
      && w.isFile (joinPaths ((w.env "JAVA_HOME").getD ".") ["bin", "java"]) then
    .ok true
  else
    match w.spawn with
    | none => .error (.fileNotFoundError "java")
    | some (out, err) =>
        .ok (startswith out "java version" || startswith err "java version")

/-- The versioned development-mode jar path: the version string
interpolated into the fixed filename template inside `target/`. -/
def devel_jar_path (w : World) (version : String) : String :=
  joinPaths (lolo_root w)
    ["target", "lolo-" ++ version ++ "-jar-with-dependencies.jar"]

/-- The packaged-mode jar path bundled next to the module. -/
def packaged_jar_path (w : World) : String :=
  joinPaths w.moduleDir ["jar", "lolo-jar-with-dependencies.jar"]

/-- Message of the development-mode `RuntimeError`. -/
def devel_jar_missing_msg : String :=
  "Current version of lolo jar not found. Try re-building project with make"

/-- Message of the packaged-mode `RuntimeError`. -/
def packaged_jar_missing_msg : String :=
  "Lolo not found. Try reinstalling lolo from PyPi."

/-- Message of the `AttributeError` raised by `None.text` when the version
element is absent from the descriptor. -/
def version_absent_msg : String :=
  "NoneType object has no attribute text"

/-- `find_lolo_jar(skip_devel_version)`: development mode when the marker
directory exists and is not skipped (parse the descriptor, compose the
versioned path, fail if the file is absent), else packaged mode (fixed
bundled path, fail if absent). -/
def find_lolo_jar (w : World) (skip_devel_version : Bool) : Except PyError String :=
  if !skip_devel_version && _is_development_installation w then
    match w.pom with
    | .missing => .error (.fileNotFoundError (pom_path w))
    | .malformed => .error (.xmlParseError (pom_path w))
    | .parsed none => .error (.attributeError version_absent_msg)
    | .parsed (some v) =>
        let jar_path := devel_jar_path w v
        if !w.isFile jar_path then
          .error (.runtimeError devel_jar_missing_msg)
        else
          .ok jar_path
  else
    let jar_path := packaged_jar_path w
    if !w.isFile jar_path then
      .error (.runtimeError packaged_jar_missing_msg)
    else
      .ok jar_path

/-- The launch flag list assembled at the top of `get_java_gateway`: a
single `-Xmx` flag when `LOLOPY_JVM_MEMORY` is in the environment (with its
verbatim value appended, even when empty), else no flags. -/
def java_options (w : World) : List String :=
  match w.env "LOLOPY_JVM_MEMORY" with
  | some v => ["-Xmx" ++ v]
  | none => []

/-- Message of the `ValueError` raised when Java is not found. -/
def java_missing_msg : String :=
  "Cannot find Java installation. Java must be installed and on your PATH"

/-- Observable side effects of a `get_java_gateway` call, in order:
resolving the artifact (`find_lolo_jar`), probing the runtime
(`_java_is_installed`), and launching the bridge process with the given
classpath and launch flags. -/
inductive Event where
  | resolveArtifact
  | checkRuntime
  | launch (classpath : String) (javaopts : List String)
  deriving DecidableEq, Repr

/-- `get_java_gateway(reuse, skip_devel_version)`.  `gw` is the global
`_lolopy_gateway` slot on entry; `fresh` is the handle a new launch would
produce.  Returns the call result, the slot on exit, and the trace of
observable effects.  Mirrors the source: the flag list is computed first on
every call; if a gateway exists and `reuse` holds it is returned at once;
otherwise the jar is located, Java is probed with default (non-ignoring)
environment mode, and only then is the gateway launched and stored. -/
def get_java_gateway (w : World) (gw : Option Nat) (fresh : Nat)
    (reuse : Bool) (skip_devel_version : Bool) :
    Except PyError Nat × Option Nat × List Event :=
  let java_opts := java_options w
  match gw, reuse with
  | some h, true => (.ok h, some h, [])
  | _, _ =>
      match find_lolo_jar w skip_devel_version with
      | .error e => (.error e, gw, [.resolveArtifact])
      | .ok lolo_path =>
          match _java_is_installed w false with
          | .error e => (.error e, gw, [.resolveArtifact, .checkRuntime])
          | .ok false =>
              (.error (.valueError java_missing_msg), gw,
               [.resolveArtifact, .checkRuntime])
          | .ok true =>
              (.ok fresh, some fresh,
               [.resolveArtifact, .checkRuntime,
                .launch (w.abspath lolo_path) java_opts])

/-- The error categories of the module's taxonomy that arise from reading
the build descriptor in development mode: the descriptor file missing, the
descriptor malformed, or the version element absent.  Distinct from the
`RuntimeError`s (artifact not found) and the `ValueError` (runtime
unavailable). -/
def isDescriptorReadError (w : World) (e : PyError) : Prop :=
  e = .fileNotFoundError (pom_path w) ∨ e = .xmlParseError (pom_path w)
    ∨ e = .attributeError version_absent_msg

instance (w : World) (e : PyError) : Decidable (isDescriptorReadError w e) := by
  unfold isDescriptorReadError; infer_instance

/-! ### Concrete worlds used by the witnesses and counterexamples -/

/-- A bare environment: no environment variables, no files or directories,
and spawning `java` fails (it is not on the `PATH`). -/
def noJavaWorld : World where
  moduleDir := "/site/lolopy"
  env := fun _ => none
  isFile := fun _ => false
  isDir := fun _ => false
  pom := .missing
  spawn := none
  abspath := fun p => p

/-- A packaged installation: no development markers, every probed file
present, and `java -version` prints the expected banner. -/
def packagedWorld : World where
  moduleDir := "/site/lolopy"
  env := fun _ => none
  isFile := fun _ => true
  isDir := fun _ => false
  pom := .missing
  spawn := some ("java version 1.8.0_151", "")
  abspath := fun p => p

/-- A development checkout whose descriptor names version `1.2.3` but whose
built jar is absent. -/
def develWorld : World where
  moduleDir := "/checkout/python/lolopy"
  env := fun _ => none
  isFile := fun _ => false
  isDir := fun _ => true
  pom := .parsed (some "1.2.3")
  spawn := none
  abspath := fun p => p

/-- A development checkout whose descriptor file is missing. -/
def develBadPomWorld : World :=
  { develWorld with pom := .missing }

/-- A packaged installation where only the bundled jar exists and neither
Java probe succeeds: no `JAVA_HOME` file, and the spawned process prints a
banner that does not carry the expected version line. -/
def noJavaPackagedWorld : World where
  moduleDir := "/site/lolopy"
  env := fun _ => none
  isFile := fun p => p == "/site/lolopy/jar/lolo-jar-with-dependencies.jar"
  isDir := fun _ => false
  pom := .missing
  spawn := some ("openjdk version 11.0.2", "")
  abspath := fun p => p

/-- The bare world with `LOLOPY_JVM_MEMORY` present but empty. -/
def emptyMemWorld : World :=
  { noJavaWorld with
      env := fun k => if k = "LOLOPY_JVM_MEMORY" then some "" else none }

/-- The bare world with `LOLOPY_JVM_MEMORY` set to `2g`. -/
def memWorld2g : World :=
  { noJavaWorld with
      env := fun k => if k = "LOLOPY_JVM_MEMORY" then some "2g" else none }

/-- The bare world with `JAVA_HOME` set and a successful spawn probe. -/
def javaHomeWorld : World :=
  { noJavaWorld with
      env := fun k => if k = "JAVA_HOME" then some "/jdk" else none,
      spawn := some ("java version 1.8.0_151", "") }

/-! ### Helper lemmas on the gateway slot -/

/-- A successful `get_java_gateway` call always leaves the slot holding the
returned handle. -/
theorem gateway_ok_slot (w : World) (gw g' : Option Nat) (fresh : Nat)
    (reuse skip : Bool) (h : Nat) (tr : List Event)
    (hok : get_java_gateway w gw fresh reuse skip = (.ok h, g', tr)) :
    g' = some h := by
  simp only [get_java_gateway] at hok
  split at hok
  · simp only [Prod.mk.injEq, Except.ok.injEq] at hok
    rw [← hok.2.1, hok.1]
  · split at hok
    · simp at hok
    · split at hok
      · simp at hok
      · simp at hok
      · simp only [Prod.mk.injEq, Except.ok.injEq] at hok
        rw [← hok.2.1, hok.1]

/-- A failed `get_java_gateway` call leaves the slot exactly as it was. -/
theorem gateway_error_slot (w : World) (gw g' : Option Nat) (fresh : Nat)
    (reuse skip : Bool) (e : PyError) (tr : List Event)
    (hfail : get_java_gateway w gw fresh reuse skip = (.error e, g', tr)) :
    g' = gw := by
  simp only [get_java_gateway] at hfail
  split at hfail
  · simp at hfail
  · split at hfail
    · simp only [Prod.mk.injEq] at hfail
      exact hfail.2.1.symm
    · split at hfail
      · simp only [Prod.mk.injEq] at hfail
        exact hfail.2.1.symm
      · simp only [Prod.mk.injEq] at hfail
        exact hfail.2.1.symm
      · simp at hfail

/-! ### The claims -/

/-- Claim C1.  The claim states that a spawn failure (runtime executable
not on the `PATH`) makes `_java_is_installed` return `false` rather than
propagate an error.  The source calls `subprocess.run` without catching
`FileNotFoundError`, so in an environment with no `JAVA_HOME` hit and no
spawnable `java` the call propagates the error instead of returning a
boolean, contradicting the function's own docstring (`Returns: (bool)`). -/
theorem C1_spawn_failure_propagates :
    _java_is_installed noJavaWorld false
      = .error (.fileNotFoundError "java") := rfl

/-- Claim C2.  After any successful call (in particular a first successful
launch) stores handle `h` in the slot, every later call with `reuse = true`
returns the identical handle, leaves the slot unchanged, and performs no
artifact resolution, no runtime-availability check and no launch (its event
trace is empty). -/
theorem C2_reuse_returns_cached_handle (w1 w2 : World) (g0 g1 : Option Nat)
    (f1 f2 : Nat) (r1 sd1 sd2 : Bool) (h : Nat) (tr : List Event)
    (hfirst : get_java_gateway w1 g0 f1 r1 sd1 = (.ok h, g1, tr)) :
    get_java_gateway w2 g1 f2 true sd2 = (.ok h, g1, []) := by
  have hg := gateway_ok_slot w1 g0 g1 f1 r1 sd1 h tr hfirst
  subst hg
  rfl

/-- Witness for C2 at a concrete first launch in a packaged world. -/
theorem C2_witness :
    get_java_gateway packagedWorld (some 7) 9 true false
      = (.ok 7, some 7, []) :=
  C2_reuse_returns_cached_handle packagedWorld packagedWorld none (some 7)
    7 9 false false false 7
    [.resolveArtifact, .checkRuntime,
     .launch (packagedWorld.abspath (packaged_jar_path packagedWorld))
       (java_options packagedWorld)]
    rfl

/-- Claim C3, counterexample.  The claim says an absent or empty heap-size
variable yields an empty flag list; but the source tests only membership in
`os.environ`, so a present-but-empty `LOLOPY_JVM_MEMORY` yields the flag
list `[-Xmx]`, which is not empty. -/
theorem C3_counterexample :
    emptyMemWorld.env "LOLOPY_JVM_MEMORY" = some ""
      ∧ java_options emptyMemWorld = ["-Xmx"]
      ∧ java_options emptyMemWorld ≠ [] :=
  ⟨rfl, rfl, by decide⟩

/-- Claim C3 as amended: if `LOLOPY_JVM_MEMORY` is present with value `v`
(empty included) the flag list is exactly `[-Xmx ++ v]`; if it is absent
the flag list is empty. -/
theorem C3_env_flag_mapping (w : World) :
    (∀ v, w.env "LOLOPY_JVM_MEMORY" = some v →
        java_options w = ["-Xmx" ++ v])
  ∧ (w.env "LOLOPY_JVM_MEMORY" = none → java_options w = []) := by
  constructor
  · intro v hv
    simp [java_options, hv]
  · intro hv
    simp [java_options, hv]

/-- Witness for the amended C3 at the value `2g`. -/
theorem C3_witness : java_options memWorld2g = ["-Xmx2g"] :=
  (C3_env_flag_mapping memWorld2g).1 "2g" rfl

/-- Claim C4.  Whenever `find_lolo_jar` returns a path instead of failing,
a file exists at that path, in either mode. -/
theorem C4_returned_path_exists (w : World) (skip : Bool) (p : String)
    (hres : find_lolo_jar w skip = .ok p) : w.isFile p = true := by
  simp only [find_lolo_jar] at hres
  split at hres
  · split at hres
    · simp at hres
    · simp at hres
    · simp at hres
    · split at hres
      · simp at hres
      · next hfile =>
          simp only [Except.ok.injEq] at hres
          subst hres
          simpa using hfile
  · split at hres
    · simp at hres
    · next hfile =>
        simp only [Except.ok.injEq] at hres
        subst hres
        simpa using hfile

/-- Witness for C4 in a packaged world where the bundled jar exists. -/
theorem C4_witness : packagedWorld.isFile (packaged_jar_path packagedWorld) = true :=
  C4_returned_path_exists packagedWorld true (packaged_jar_path packagedWorld) rfl

/-- Claim C5.  With the development marker present and the descriptor
naming version `v`, resolution targets exactly the versioned path under
`target/`; if no file exists there it fails with the development-mode
artifact error instead of falling back to the packaged path. -/
theorem C5_devel_version_path_failfast (w : World) (v : String)
    (hdev : _is_development_installation w = true)
    (hpom : w.pom = .parsed (some v)) :
    find_lolo_jar w false =
      if w.isFile (devel_jar_path w v) then .ok (devel_jar_path w v)
      else .error (.runtimeError devel_jar_missing_msg) := by
  simp only [find_lolo_jar, hdev, hpom, Bool.not_false, Bool.true_and]
  cases hf : w.isFile (devel_jar_path w v) <;> simp [hf]

/-- Witness for C5: marker present, descriptor names `1.2.3`, jar absent,
so resolution fails fast with the development-mode artifact error. -/
theorem C5_witness :
    find_lolo_jar develWorld false
      = .error (.runtimeError devel_jar_missing_msg) :=
  C5_devel_version_path_failfast develWorld "1.2.3" rfl rfl

/-- Claim C6.  In development mode, a missing or malformed descriptor, or
an absent version field, makes `find_lolo_jar` fail with one of the
descriptor-read errors, which is distinct from both artifact-not-found
errors (`RuntimeError`) and the runtime-unavailable error (`ValueError`). -/
theorem C6_descriptor_failure_categorized (w : World)
    (hdev : _is_development_installation w = true)
    (hbad : w.pom = .missing ∨ w.pom = .malformed ∨ w.pom = .parsed none) :
    ∃ e, find_lolo_jar w false = .error e ∧ isDescriptorReadError w e
      ∧ (∀ msg, e ≠ .runtimeError msg) ∧ (∀ msg, e ≠ .valueError msg) := by
  rcases hbad with hp | hp | hp
  · exact ⟨.fileNotFoundError (pom_path w),
      by simp [find_lolo_jar, hdev, hp], Or.inl rfl,
      fun msg => by simp, fun msg => by simp⟩
  · exact ⟨.xmlParseError (pom_path w),
      by simp [find_lolo_jar, hdev, hp], Or.inr (Or.inl rfl),
      fun msg => by simp, fun msg => by simp⟩
  · exact ⟨.attributeError version_absent_msg,
      by simp [find_lolo_jar, hdev, hp], Or.inr (Or.inr rfl),
      fun msg => by simp, fun msg => by simp⟩

/-- Witness for C6: development checkout with the descriptor file missing. -/
theorem C6_witness :
    ∃ e, find_lolo_jar develBadPomWorld false = .error e
      ∧ isDescriptorReadError develBadPomWorld e
      ∧ (∀ msg, e ≠ .runtimeError msg) ∧ (∀ msg, e ≠ .valueError msg) :=
  C6_descriptor_failure_categorized develBadPomWorld rfl (Or.inl rfl)

/-- Claim C7.  On the launch path (no stored handle, or `reuse = false`):
artifact resolution runs first and its errors propagate unchanged with no
runtime check and no launch; when it succeeds, the runtime probe runs in
non-ignoring environment mode, and a `false` probe fails the call with the
runtime-unavailable `ValueError`, again with no launch. -/
theorem C7_launch_order_and_runtime_gate (w : World) (gw : Option Nat)
    (fresh : Nat) (reuse skip : Bool) (hlaunch : gw = none ∨ reuse = false) :
    (∀ e, find_lolo_jar w skip = .error e →
        get_java_gateway w gw fresh reuse skip = (.error e, gw, [.resolveArtifact]))
  ∧ (∀ p, find_lolo_jar w skip = .ok p → _java_is_installed w false = .ok false →
        get_java_gateway w gw fresh reuse skip =
          (.error (.valueError java_missing_msg), gw,
           [.resolveArtifact, .checkRuntime])) := by
  constructor
  · intro e he
    rcases hlaunch with rfl | rfl
    · simp [get_java_gateway, he]
    · cases gw <;> simp [get_java_gateway, he]
  · intro p hp hj
    rcases hlaunch with rfl | rfl
    · simp [get_java_gateway, hp, hj]
    · cases gw <;> simp [get_java_gateway, hp, hj]

/-- Witness for C7: only the bundled jar exists and neither Java probe
succeeds, so the call fails with the runtime-unavailable error after
resolving the artifact, and nothing is launched. -/
theorem C7_witness :
    get_java_gateway noJavaPackagedWorld none 7 true false
      = (.error (.valueError java_missing_msg), none,
         [.resolveArtifact, .checkRuntime]) :=
  (C7_launch_order_and_runtime_gate noJavaPackagedWorld none 7 true false
      (Or.inl rfl)).2
    (packaged_jar_path noJavaPackagedWorld) rfl rfl

/-- Claim C8.  With `ignore_env = true`, `_java_is_installed` never
consults the `JAVA_HOME` variable: for any two environments that differ
only at `JAVA_HOME` the result is identical, and more generally the result
depends only on the spawn-probe outcome. -/
theorem C8_ignore_env_noninterference (w : World) (e2 : String → Option String)
    (henv : ∀ k, k ≠ "JAVA_HOME" → w.env k = e2 k) :
    _java_is_installed { w with env := e2 } true = _java_is_installed w true
      ∧ ∀ w' : World, w'.spawn = w.spawn →
          _java_is_installed w' true = _java_is_installed w true := by
  constructor
  · simp [_java_is_installed]
  · intro w' hs
    simp [_java_is_installed, hs]

/-- Witness for C8: removing the `JAVA_HOME` binding entirely does not
change the `ignore_env = true` result. -/
theorem C8_witness :
    _java_is_installed { javaHomeWorld with env := fun _ => none } true
      = _java_is_installed javaHomeWorld true :=
  (C8_ignore_env_noninterference javaHomeWorld (fun _ => none)
      (fun k hk => if_neg hk)).1

/-- Claim C9.  Any failing `get_java_gateway` call leaves the shared slot
unchanged, and when the slot already held a handle, a later call with
`reuse = true` still returns that prior handle. -/
theorem C9_failure_preserves_handle (w : World) (gw g' : Option Nat)
    (fresh : Nat) (reuse skip : Bool) (e : PyError) (tr : List Event)
    (hfail : get_java_gateway w gw fresh reuse skip = (.error e, g', tr)) :
    g' = gw ∧ ∀ h, gw = some h → ∀ (w2 : World) (f2 : Nat) (sd2 : Bool),
      get_java_gateway w2 g' f2 true sd2 = (.ok h, some h, []) := by
  have hg := gateway_error_slot w gw g' fresh reuse skip e tr hfail
  subst hg
  refine ⟨rfl, ?_⟩
  intro h hh w2 f2 sd2
  subst hh
  rfl

/-- Witness for C9: a forced-fresh call fails in a development world, and
the previously stored handle `5` is still returned afterwards. -/
theorem C9_witness :
    get_java_gateway develWorld (some 5) 9 true false = (.ok 5, some 5, []) :=
  (C9_failure_preserves_handle develWorld (some 5) (some 5) 9 false false
      (.runtimeError devel_jar_missing_msg) [.resolveArtifact] rfl).2
    5 rfl develWorld 9 false

/-- Claim C10.  On the reuse path the returned handle does not depend on
the heap-size variable: for any two environments differing only at
`LOLOPY_JVM_MEMORY`, a call with a stored handle and `reuse = true` returns
that same stored handle in both. -/
theorem C10_reuse_ignores_memory_env (w : World) (m2 : String → Option String)
    (h fresh : Nat) (skip : Bool)
    (henv : ∀ k, k ≠ "LOLOPY_JVM_MEMORY" → w.env k = m2 k) :
    get_java_gateway w (some h) fresh true skip = (.ok h, some h, [])
      ∧ get_java_gateway { w with env := m2 } (some h) fresh true skip
          = (.ok h, some h, []) :=
  ⟨rfl, rfl⟩

/-- Witness for C10: with and without `LOLOPY_JVM_MEMORY = 2g`, the reuse
path returns the stored handle `3`. -/
theorem C10_witness :
    get_java_gateway memWorld2g (some 3) 8 true false = (.ok 3, some 3, [])
      ∧ get_java_gateway { memWorld2g with env := fun _ => none }
          (some 3) 8 true false = (.ok 3, some 3, []) :=
  C10_reuse_ignores_memory_env memWorld2g (fun _ => none) 3 8 false
    (fun k hk => if_neg hk)

end LoloServer
